import Mathlib

/-!
Shallow embedding of `src/splunk-log-downloader.py`, a client-side
orchestrator for Splunk's asynchronous search-job REST API.  The embedding
models the control flow of the job lifecycle (submit, poll, re-authenticate,
resume) and of result retrieval (paged CSV/JSON retrieval and the three-tier
raw-export fallback).  HTTP transport is abstracted as an oracle mapping each
request the program issues to the `HttpResponse` the server returns; transport
exceptions are not modelled (the oracle is total).  Python strings are
modelled as Lean `String`s with the Python operations (`lower`, `upper`,
`strip`, substring `in`, `split('|')[0]`) spelled out over the character
list, so that every definition evaluates on concrete inputs.
-/

namespace SplunkLogDownloader

/-- Python's `needle in hay` substring test: the needle's character list is a
contiguous infix of the hay's character list. -/
def strContainsSub (hay needle : String) : Bool :=
  decide (needle.toList <:+: hay.toList)

/-- Python's `str.lower()` (the queries and messages involved are ASCII). -/
def pyLower (s : String) : String :=
  String.mk (s.toList.map Char.toLower)

/-- Python's `str.upper()` (dispatch states involved are ASCII). -/
def pyUpper (s : String) : String :=
  String.mk (s.toList.map Char.toUpper)

/-- Python's `str.strip()`: drop whitespace from both ends. -/
def pyStrip (s : String) : String :=
  String.mk (((s.toList.dropWhile Char.isWhitespace).reverse.dropWhile
    Char.isWhitespace).reverse)

/-- Python's `search_query.split('|')[0]`: the text before the first `'|'`
(the whole text when no `'|'` occurs). -/
def beforePipe (s : String) : String :=
  String.mk (s.toList.takeWhile (fun c => c ≠ '|'))

/-- Python's `'|' in search_query`. -/
def containsPipe (s : String) : Bool :=
  s.toList.contains '|'

/-- The fixed transforming-command set of `get_raw_results`
(src line 184). -/
def transforming_commands : List String :=
  ["table", "stats", "chart", "timechart", "top", "rare", "contingency", "join"]

/-- `any(cmd in search_query.lower() for cmd in transforming_commands)`
(src line 185). -/
def has_transforming_commands (search_query : String) : Bool :=
  transforming_commands.any (fun cmd => strContainsSub (pyLower search_query) cmd)

/-- The extended transforming-command set of the raw-mode interactive
confirmation in `main` (src lines 374-375). -/
def extended_transforming_commands : List String :=
  ["table", "stats", "chart", "timechart", "top", "rare", "contingency", "join",
   "rex", "eval", "fields", "dedup", "rename"]

/-- `any(cmd in search_query.lower() for cmd in transforming_commands)` with
the extended set (src line 376). -/
def has_extended_transforming_commands (search_query : String) : Bool :=
  extended_transforming_commands.any
    (fun cmd => strContainsSub (pyLower search_query) cmd)

/-- An HTTP response, as far as the program inspects it: a numeric status
code and a text body. -/
structure HttpResponse where
  status_code : Nat
  text : String
deriving DecidableEq

/-- The success criterion shared by the three raw-export tiers (src lines
234, 258, 297-300): status 200, a body that is non-empty after stripping,
and no "Empty search" sentinel in the (unstripped) body. -/
def raw_tier_success (r : HttpResponse) : Bool :=
  r.status_code == 200 && !(pyStrip r.text == "") &&
    !(strContainsSub r.text "Empty search")

/-- One request issued by `get_raw_results`: tier 1 posts the export endpoint
with the SID, tier 2 gets the results endpoint with `output_mode=raw` and
`count=0`, tier 3 posts a fresh blocking export of the (possibly modified)
query text with the configured time bounds. -/
inductive RawRequest where
  | exportBySid (sid : String)
  | resultsAsRaw (sid : String)
  | exportResubmit (search : String) (earliest latest : Option String)
deriving DecidableEq

/-- The tier-3 query text (src lines 272-278): start from the original query;
when it contains a transforming command and a `'|'`, replace it by
`search_query.split('|')[0].strip()`. -/
def modified_search_query (search_query : String) : String :=
  if has_transforming_commands search_query then
    if containsPipe search_query then pyStrip (beforePipe search_query)
    else search_query
  else search_query

/-- Outcome of `get_raw_results`: the retrieved text, or the fatal exhaustion
exit (src line 327; the spec's `ExportExhaustedError`). -/
inductive RawResult where
  | ok (text : String)
  | exportExhaustedError
deriving DecidableEq

/-- The requests `get_raw_results` issued (in order) together with its
outcome. -/
structure RawFetchOutcome where
  requests : List RawRequest
  result : RawResult
deriving DecidableEq

/-- `get_raw_results` (src lines 219-327): three fallback tiers tried in
order, each accepted by `raw_tier_success`, otherwise falling through; when
all three fail the run exits fatally.  The preliminary job-status GET (src
lines 192-217) only produces debug logging and is not modelled; `respond` is
the transport oracle. -/
def get_raw_results (sid search_query : String) (earliest latest : Option String)
    (respond : RawRequest → HttpResponse) : RawFetchOutcome :=
  let req1 := RawRequest.exportBySid sid
  let r1 := respond req1
  if raw_tier_success r1 then ⟨[req1], RawResult.ok r1.text⟩
  else
    let req2 := RawRequest.resultsAsRaw sid
    let r2 := respond req2
    if raw_tier_success r2 then ⟨[req1, req2], RawResult.ok r2.text⟩
    else
      let req3 := RawRequest.exportResubmit (modified_search_query search_query)
        earliest latest
      let r3 := respond req3
      if raw_tier_success r3 then ⟨[req1, req2, req3], RawResult.ok r3.text⟩
      else ⟨[req1, req2, req3], RawResult.exportExhaustedError⟩

/-- One diagnostic message of a poll response body (`job_info["messages"]`);
`text` is `msg.get("text", "")`. -/
structure PollMessage where
  text : String
deriving DecidableEq

/-- A parsed poll response body, as far as `poll_job` inspects it.
`entry = none` models a body with no `"entry"` key; `entry = some none` a
body whose `entry[0].content` has no `"dispatchState"`; `entry = some (some
st)` a body reporting dispatch state `st`.  (`poll_job` exits immediately on
a body that is not JSON at all, src lines 127-131; only parsed bodies are
modelled.) -/
structure PollResponse where
  entry : Option (Option String)
  messages : List PollMessage
deriving DecidableEq

/-- The session-expiry signal test of src line 135:
`"not properly authenticated" in msg.get("text", "").lower()`. -/
def auth_expired_message (m : PollMessage) : Bool :=
  strContainsSub (pyLower m.text) "not properly authenticated"

/-- What one iteration of the `poll_job` loop does with one response
(src lines 132-160). -/
inductive PollStep where
  | reauth
  | fatal
  | finished
  | keepPolling
deriving DecidableEq

/-- One iteration of `poll_job` (src lines 132-160): no envelope with a
matching message re-authenticates and retries; no envelope and no matching
message exits fatally; an envelope without a dispatch state exits fatally; a
state whose uppercasing is `"DONE"` finishes; any other state waits and
polls again. -/
def poll_step (r : PollResponse) : PollStep :=
  match r.entry with
  | none =>
      if r.messages.any auth_expired_message then PollStep.reauth
      else PollStep.fatal
  | some none => PollStep.fatal
  | some (some state) =>
      if pyUpper state == "DONE" then PollStep.finished
      else PollStep.keepPolling

/-- An authenticated session: the credentials it was created from and a
generation counter distinguishing a fresh login from its predecessor. -/
structure Session where
  username : String
  password : String
  generation : Nat
deriving DecidableEq

/-- `create_session` (src lines 61-85), abstracted from transport: a fresh
session holding the given credentials. -/
def create_session (username password : String) (generation : Nat) : Session :=
  ⟨username, password, generation⟩

/-- Result of running the poll loop against a finite list of responses:
`completed` is the `break` at `DONE` (returning the current session),
`pollError` the fatal exit on an unrecognizable response, `stillPolling`
means the whole list was consumed and the loop would keep polling (the loop
has no timeout or retry cap). -/
inductive PollResult where
  | completed (session : Session)
  | pollError
  | stillPolling (session : Session)
deriving DecidableEq

/-- `poll_job` (src lines 118-161) driven by a finite list of successive
poll-response bodies: loop until `DONE`, re-authenticating (with the same
credentials) on a recognized session-expiry message, exiting fatally on an
unrecognizable response.  The returned session is the possibly replaced
one. -/
def poll_job (username password : String) :
    List PollResponse → Session → PollResult
  | [], session => PollResult.stillPolling session
  | r :: rest, session =>
    match poll_step r with
    | PollStep.finished => PollResult.completed session
    | PollStep.keepPolling => poll_job username password rest session
    | PollStep.reauth =>
        poll_job username password rest
          (create_session username password (session.generation + 1))
    | PollStep.fatal => PollResult.pollError

/-- The paged-retrieval driver loop of `main` (src lines 453-482, identical
offset arithmetic in the csv and json branches): the list of
`(offset, count)` argument pairs passed to `get_results` (src lines
163-172), starting at offset 0 and advancing by `page_size` while
`offset < total_results`.  The hypothesis `0 < page_size` is the loop's
termination condition (with `page_size = 0` the Python loop never
advances). -/
def page_loop (total_results page_size : Nat) (hp : 0 < page_size)
    (offset : Nat) : List (Nat × Nat) :=
  if h : offset < total_results then
    (offset, page_size) :: page_loop total_results page_size hp (offset + page_size)
  else []
termination_by total_results - offset
decreasing_by omega

/-- The configuration values `main` reads (src lines 350-363) that the
modelled control flow depends on. -/
structure Config where
  debug : Bool
  search_query : String
  output_mode : String
  page_size : Nat
  earliest : Option String
  latest : Option String
  output_file : String
deriving DecidableEq

/-- The persisted resume record of `.debug_sid.json` (src lines 32-59); the
creation timestamp is never compared and is omitted. -/
structure SavedSid where
  sid : String
  search_query : String
  earliest : Option String
  latest : Option String
deriving DecidableEq

/-- The externally visible actions of `main` that the claims are about, in
program order. -/
inductive MainAction where
  | createSession
  | submitJob (query : String) (earliest latest : Option String)
  | pollLoop (sid : String)
  | saveSid (sid : String)
  | getTotalCount (sid : String)
  | writeOutput (file : String)
deriving DecidableEq

/-- The user's reply at the raw-mode confirmation prompt (src line 395):
an entered line, or a keyboard interrupt. -/
inductive PromptAnswer where
  | answer (s : String)
  | interrupt
deriving DecidableEq

/-- Whether the prompt reply lets the run proceed (src lines 394-401):
`response.strip().lower() == 'y'`; an interrupt never proceeds. -/
def affirmative : PromptAnswer → Bool
  | PromptAnswer.answer s => pyLower (pyStrip s) == "y"
  | PromptAnswer.interrupt => false

/-- The raw-mode confirmation gate of `main` (src lines 372-401): prompt
only when `output_mode == "log"` and the query contains an extended
transforming keyword; otherwise proceed unconditionally. -/
def confirm_decision (cfg : Config) (ans : PromptAnswer) : Bool :=
  if cfg.output_mode == "log" &&
      has_extended_transforming_commands cfg.search_query then
    affirmative ans
  else true

/-- The saved-SID comparison of src lines 418-420: stored query and both
time bounds must equal the current configuration exactly. -/
def sid_matches (saved : SavedSid) (cfg : Config) : Bool :=
  saved.search_query == cfg.search_query && saved.earliest == cfg.earliest &&
    saved.latest == cfg.latest

/-- The new-job path shared by both branches of `main` (src lines 427-434
and 436-449): submit, poll to completion, and save the SID when in debug
mode. -/
def new_job_actions (cfg : Config) (new_sid : String) : List MainAction :=
  MainAction.submitJob cfg.search_query cfg.earliest cfg.latest ::
    MainAction.pollLoop new_sid ::
    (if cfg.debug then [MainAction.saveSid new_sid] else [])

/-- The job-acquisition phase of `main` (src lines 410-449): the saved SID is
loaded only when `debug` is on and `--force-new-job` is not set
(src line 412); a loaded record is reused only when `sid_matches` holds,
otherwise a new job is submitted.  `saved` is the persisted file's content
(`none` when absent), `new_sid` the SID a fresh submission would return.
Returns the actions performed and the SID used afterwards. -/
def acquire_job (cfg : Config) (force_new_job : Bool) (saved : Option SavedSid)
    (new_sid : String) : List MainAction × String :=
  let saved_sid_data := if cfg.debug && !force_new_job then saved else none
  match saved_sid_data with
  | some s =>
      if !force_new_job then
        if sid_matches s cfg then ([], s.sid)
        else (new_job_actions cfg new_sid, new_sid)
      else (new_job_actions cfg new_sid, new_sid)
  | none => (new_job_actions cfg new_sid, new_sid)

/-- How the modelled run of `main` ends: a `sys.exit(code)`, or normal
completion. -/
inductive MainResult where
  | exited (code : Nat)
  | completed
deriving DecidableEq

/-- The orchestration of `main` (src lines 341-495) at the level the claims
speak about: the confirmation gate runs before any session or job exists
(src lines 372-401 precede line 408); on a non-affirmative reply the process
exits with status 0 having performed no action and written no file
(src lines 396-401); otherwise a session is created, the job is acquired
(reused or submitted and polled), the total count is fetched for the
acquired SID (src line 451), and the output file is written.  Retrieval
itself is modelled separately (`page_loop`, `get_raw_results`); here its
network calls are assumed to succeed. -/
def main_model (cfg : Config) (force_new_job : Bool) (saved : Option SavedSid)
    (ans : PromptAnswer) (new_sid : String) : List MainAction × MainResult :=
  if confirm_decision cfg ans then
    let acquired := acquire_job cfg force_new_job saved new_sid
    (MainAction.createSession :: acquired.1 ++
      [MainAction.getTotalCount acquired.2, MainAction.writeOutput cfg.output_file],
      MainResult.completed)
  else ([], MainResult.exited 0)

/-! Helper lemmas about the poll loop. -/

theorem poll_step_keepPolling_of_state {r : PollResponse} {st : String}
    (he : r.entry = some (some st)) (hne : pyUpper st ≠ "DONE") :
    poll_step r = PollStep.keepPolling := by
  simp [poll_step, he, hne]

theorem poll_step_finished_of_done {r : PollResponse} {st : String}
    (he : r.entry = some (some st)) (hdone : pyUpper st = "DONE") :
    poll_step r = PollStep.finished := by
  simp [poll_step, he, hdone]

theorem poll_job_append_keep (u p : String) (pre rest : List PollResponse)
    (s : Session) (h : ∀ r ∈ pre, poll_step r = PollStep.keepPolling) :
    poll_job u p (pre ++ rest) s = poll_job u p rest s := by
  induction pre with
  | nil => rfl
  | cons a t ih =>
      have ha := h a (List.mem_cons_self a t)
      have ht : ∀ r ∈ t, poll_step r = PollStep.keepPolling :=
        fun r hr => h r (List.mem_cons_of_mem a hr)
      simp [poll_job, ha, ih ht]

theorem poll_job_all_keep (u p : String) (l : List PollResponse) (s : Session)
    (h : ∀ r ∈ l, poll_step r = PollStep.keepPolling) :
    poll_job u p l s = PollResult.stillPolling s := by
  induction l with
  | nil => rfl
  | cons a t ih =>
      have ha := h a (List.mem_cons_self a t)
      have ht : ∀ r ∈ t, poll_step r = PollStep.keepPolling :=
        fun r hr => h r (List.mem_cons_of_mem a hr)
      simp [poll_job, ha, ih ht]

/-- C2: the poll loop keeps looping while the reported dispatch state is
anything other than `DONE` under case-insensitive comparison (every finite
sequence of such responses is fully consumed with the loop still polling —
there is no timeout or retry cap), and it returns exactly once, at the first
response whose dispatch state uppercases to `DONE`, regardless of what
follows. -/
theorem C2_poll_until_done (u p : String) (pre rest : List PollResponse)
    (d : PollResponse) (stD : String) (s : Session)
    (hpre : ∀ r ∈ pre, ∃ st, r.entry = some (some st) ∧ pyUpper st ≠ "DONE")
    (hd : d.entry = some (some stD)) (hdone : pyUpper stD = "DONE") :
    poll_job u p (pre ++ d :: rest) s = PollResult.completed s ∧
    ∀ l : List PollResponse,
      (∀ r ∈ l, ∃ st, r.entry = some (some st) ∧ pyUpper st ≠ "DONE") →
      poll_job u p l s = PollResult.stillPolling s := by
  constructor
  · have hkeep : ∀ r ∈ pre, poll_step r = PollStep.keepPolling := by
      intro r hr
      obtain ⟨st, he, hne⟩ := hpre r hr
      exact poll_step_keepPolling_of_state he hne
    rw [poll_job_append_keep u p pre (d :: rest) s hkeep]
    simp [poll_job, poll_step_finished_of_done hd hdone]
  · intro l hl
    refine poll_job_all_keep u p l s (fun r hr => ?_)
    obtain ⟨st, he, hne⟩ := hl r hr
    exact poll_step_keepPolling_of_state he hne

/-- Witness for C2: states RUNNING, done (lower case), QUEUED — the loop
returns at the second response with the original session. -/
theorem C2_poll_until_done_witness :
    poll_job "alice" "pw"
      [⟨some (some "RUNNING"), []⟩, ⟨some (some "done"), []⟩,
        ⟨some (some "QUEUED"), []⟩] ⟨"alice", "pw", 0⟩ =
      PollResult.completed ⟨"alice", "pw", 0⟩ := by
  have hpre : ∀ r ∈ [(⟨some (some "RUNNING"), []⟩ : PollResponse)],
      ∃ st, r.entry = some (some st) ∧ pyUpper st ≠ "DONE" := by
    intro r hr
    rw [List.mem_singleton] at hr
    subst hr
    exact ⟨"RUNNING", rfl, by decide⟩
  exact (C2_poll_until_done "alice" "pw" [⟨some (some "RUNNING"), []⟩]
    [⟨some (some "QUEUED"), []⟩] ⟨some (some "done"), []⟩ "done"
    ⟨"alice", "pw", 0⟩ hpre rfl (by decide)).1

/-- C3: a poll response with no status envelope but a diagnostic message
containing "not properly authenticated" (case-insensitive substring)
re-authenticates exactly once with the same credentials (one fresh session
generation), resumes polling with the substituted session, and is never
fatal; when the job later reports DONE, the session the loop returns is the
replaced one. -/
theorem C3_reauth_once_and_resume (u p : String) (r : PollResponse)
    (rest : List PollResponse) (s : Session)
    (hent : r.entry = none)
    (hmsg : ∃ m ∈ r.messages, auth_expired_message m = true) :
    poll_step r = PollStep.reauth ∧
    poll_job u p (r :: rest) s =
      poll_job u p rest (create_session u p (s.generation + 1)) ∧
    ∀ (pre2 : List PollResponse) (d : PollResponse) (stD : String)
      (rest2 : List PollResponse), rest = pre2 ++ d :: rest2 →
      (∀ x ∈ pre2, poll_step x = PollStep.keepPolling) →
      d.entry = some (some stD) → pyUpper stD = "DONE" →
      poll_job u p (r :: rest) s =
        PollResult.completed (create_session u p (s.generation + 1)) := by
  have hany : r.messages.any auth_expired_message = true := by
    obtain ⟨m, hm, hmm⟩ := hmsg
    exact List.any_eq_true.mpr ⟨m, hm, hmm⟩
  have hstep : poll_step r = PollStep.reauth := by
    simp [poll_step, hent, hany]
  refine ⟨hstep, by simp [poll_job, hstep], ?_⟩
  intro pre2 d stD rest2 hre hkeep hd hdone
  subst hre
  have h1 : poll_job u p (r :: (pre2 ++ d :: rest2)) s =
      poll_job u p (pre2 ++ d :: rest2) (create_session u p (s.generation + 1)) := by
    simp [poll_job, hstep]
  rw [h1, poll_job_append_keep u p pre2 (d :: rest2) _ hkeep]
  simp [poll_job, poll_step_finished_of_done hd hdone]

/-- Witness for C3: an expiry message then DONE; the returned session is the
replaced one (generation 1, same credentials). -/
theorem C3_reauth_once_and_resume_witness :
    poll_job "alice" "pw"
      [⟨none, [⟨"Request failed: Session is not properly authenticated."⟩]⟩,
        ⟨some (some "DONE"), []⟩] ⟨"alice", "pw", 0⟩ =
      PollResult.completed ⟨"alice", "pw", 1⟩ := by
  have h := C3_reauth_once_and_resume "alice" "pw"
    ⟨none, [⟨"Request failed: Session is not properly authenticated."⟩]⟩
    [⟨some (some "DONE"), []⟩] ⟨"alice", "pw", 0⟩ rfl
    ⟨⟨"Request failed: Session is not properly authenticated."⟩, by simp, by decide⟩
  exact h.2.2 [] ⟨some (some "DONE"), []⟩ "DONE" [] rfl (by simp) rfl (by decide)

/-- C7: the poll loop is fatal (`PollError`, modelled as `pollError` with no
further looping) in exactly two response shapes — no envelope with no
recognized expiry message, and an envelope carrying no dispatch state; in
every other case the loop either returns or continues polling. -/
theorem C7_poll_fatal_shapes (u p : String) (r : PollResponse)
    (rest : List PollResponse) (s : Session) :
    (poll_step r = PollStep.fatal ↔
      ((r.entry = none ∧ ∀ m ∈ r.messages, auth_expired_message m = false) ∨
        r.entry = some none)) ∧
    (poll_step r = PollStep.fatal →
      poll_job u p (r :: rest) s = PollResult.pollError) ∧
    (poll_step r ≠ PollStep.fatal →
      poll_job u p (r :: rest) s = PollResult.completed s ∨
      poll_job u p (r :: rest) s = poll_job u p rest s ∨
      poll_job u p (r :: rest) s =
        poll_job u p rest (create_session u p (s.generation + 1))) := by
  refine ⟨?_, fun hf => by simp [poll_job, hf], fun hnf => ?_⟩
  · obtain ⟨entry, msgs⟩ := r
    rcases entry with _ | ost
    · by_cases hany : msgs.any auth_expired_message = true
      · obtain ⟨m, hm, hmm⟩ := List.any_eq_true.mp hany
        simp only [poll_step, hany, if_true]
        constructor
        · intro hcontra
          exact absurd hcontra (by simp)
        · rintro (⟨_, hall⟩ | hsome)
          · exact absurd (hall m hm) (by simp [hmm])
          · exact absurd hsome (by simp)
      · have hall : ∀ m ∈ msgs, auth_expired_message m = false := by
          intro m hm
          by_contra hc
          exact hany (List.any_eq_true.mpr ⟨m, hm, by
            cases h : auth_expired_message m
            · exact absurd h hc
            · rfl⟩)
        simp only [poll_step, hany, if_false, Bool.false_eq_true]
        simp
        exact hall
    · rcases ost with _ | st
      · simp [poll_step]
      · by_cases hdone : (pyUpper st == "DONE") = true
        · simp [poll_step, hdone]
        · simp [poll_step, hdone]
  · rcases hs : poll_step r with _ | _ | _ | _
    · exact Or.inr (Or.inr (by simp [poll_job, hs]))
    · exact absurd hs hnf
    · exact Or.inl (by simp [poll_job, hs])
    · exact Or.inr (Or.inl (by simp [poll_job, hs]))

/-- C1: the raw-export tiers run strictly in order — tier 2 (results
endpoint as raw, count 0) is issued iff tier 1 (export by SID) does not meet
the success criterion (status 200, non-empty stripped body, no "Empty
search" sentinel); tier 3 (blocking export resubmission) is issued iff both
tier 1 and tier 2 fail that criterion; and the outcome is the fatal
exhaustion exit iff all three tiers fail. -/
theorem C1_raw_fallback_ordering (sid q : String) (e l : Option String)
    (respond : RawRequest → HttpResponse) :
    (RawRequest.resultsAsRaw sid ∈ (get_raw_results sid q e l respond).requests ↔
      raw_tier_success (respond (RawRequest.exportBySid sid)) = false) ∧
    (RawRequest.exportResubmit (modified_search_query q) e l ∈
        (get_raw_results sid q e l respond).requests ↔
      (raw_tier_success (respond (RawRequest.exportBySid sid)) = false ∧
        raw_tier_success (respond (RawRequest.resultsAsRaw sid)) = false)) ∧
    ((get_raw_results sid q e l respond).result = RawResult.exportExhaustedError ↔
      (raw_tier_success (respond (RawRequest.exportBySid sid)) = false ∧
        raw_tier_success (respond (RawRequest.resultsAsRaw sid)) = false ∧
        raw_tier_success (respond (RawRequest.exportResubmit
          (modified_search_query q) e l)) = false)) := by
  cases h1 : raw_tier_success (respond (RawRequest.exportBySid sid)) <;>
    cases h2 : raw_tier_success (respond (RawRequest.resultsAsRaw sid)) <;>
    cases h3 : raw_tier_success (respond (RawRequest.exportResubmit
      (modified_search_query q) e l)) <;>
    simp [get_raw_results, h1, h2, h3]

/-- A transport oracle on which every raw-export tier fails (HTTP 500 with
an empty body). -/
def failRespond : RawRequest → HttpResponse := fun _ => ⟨500, ""⟩

/-- Counterexample to C4: the query `" stats "` contains the transforming
keyword `stats` but no `'|'`; `get_raw_results` resubmits it verbatim at
tier 3 (src line 276 guards the truncation on `'|' in search_query`), while
the claim's "text before the first `'|'` separator, trimmed" would be
`"stats"` — which is never resubmitted. -/
theorem C4_counterexample :
    has_transforming_commands " stats " = true ∧
    RawRequest.exportResubmit " stats " none none ∈
      (get_raw_results "sid0" " stats " none none failRespond).requests ∧
    pyStrip (beforePipe " stats ") = "stats" ∧
    RawRequest.exportResubmit "stats" none none ∉
      (get_raw_results "sid0" " stats " none none failRespond).requests ∧
    (" stats " : String) ≠ "stats" := by decide

/-- C4 as amended: when tiers 1 and 2 fail, tier 3 resubmits the query
truncated to the text before the first `'|'` and stripped iff the query
contains a transforming keyword AND contains a `'|'`; a query with no
transforming keyword, or with a transforming keyword but no `'|'`, is
resubmitted unmodified — with the configured earliest/latest bounds carried
on the resubmission in every case. -/
theorem C4_tier3_query_amended (sid q : String) (e l : Option String)
    (respond : RawRequest → HttpResponse)
    (h1 : raw_tier_success (respond (RawRequest.exportBySid sid)) = false)
    (h2 : raw_tier_success (respond (RawRequest.resultsAsRaw sid)) = false) :
    (has_transforming_commands q = true → containsPipe q = true →
      RawRequest.exportResubmit (pyStrip (beforePipe q)) e l ∈
        (get_raw_results sid q e l respond).requests) ∧
    ((has_transforming_commands q = false ∨ containsPipe q = false) →
      RawRequest.exportResubmit q e l ∈
        (get_raw_results sid q e l respond).requests) := by
  have hmem : RawRequest.exportResubmit (modified_search_query q) e l ∈
      (get_raw_results sid q e l respond).requests := by
    cases h3 : raw_tier_success (respond (RawRequest.exportResubmit
        (modified_search_query q) e l)) <;>
      simp [get_raw_results, h1, h2, h3]
  constructor
  · intro hk hp
    have : modified_search_query q = pyStrip (beforePipe q) := by
      simp [modified_search_query, hk, hp]
    rwa [this] at hmem
  · intro hor
    have : modified_search_query q = q := by
      rcases hor with hk | hp
      · simp [modified_search_query, hk]
      · rcases hk : has_transforming_commands q <;>
          simp [modified_search_query, hk, hp]
    rwa [this] at hmem

/-- Witness for the amended C4: `"index=main | stats count"` has a
transforming keyword and a pipe; with tiers 1 and 2 failing, tier 3
resubmits `"index=main"`. -/
theorem C4_tier3_query_amended_witness :
    RawRequest.exportResubmit "index=main" none none ∈
      (get_raw_results "sid0" "index=main | stats count" none none
        failRespond).requests := by
  have h := C4_tier3_query_amended "sid0" "index=main | stats count" none none
    failRespond (by decide) (by decide)
  have h2 := h.1 (by decide) (by decide)
  have he : pyStrip (beforePipe "index=main | stats count") = "index=main" := by
    decide
  rwa [he] at h2

/-- Closed form of the paging loop from any starting offset: the remaining
calls are `(offset + i * page_size, page_size)` for
`i < ceil((total - offset) / page_size)`. -/
theorem page_loop_eq (total page_size : Nat) (hp : 0 < page_size) (offset : Nat) :
    page_loop total page_size hp offset =
      (List.range ((total - offset + page_size - 1) / page_size)).map
        (fun i => (offset + i * page_size, page_size)) := by
  by_cases h : offset < total
  · have hrec := page_loop_eq total page_size hp (offset + page_size)
    rw [page_loop, dif_pos h, hrec]
    have hk : (total - offset + page_size - 1) / page_size =
        (total - (offset + page_size) + page_size - 1) / page_size + 1 := by
      by_cases hc : total ≤ offset + page_size
      · have e0 : total - (offset + page_size) = 0 := by omega
        rw [e0]
        have r1 : (0 + page_size - 1) / page_size = 0 :=
          Nat.div_eq_of_lt (by omega)
        have lhs1 : total - offset + page_size - 1 =
            (total - offset - 1) + page_size := by omega
        rw [lhs1, Nat.add_div_right _ hp, r1]
        have r2 : (total - offset - 1) / page_size = 0 :=
          Nat.div_eq_of_lt (by omega)
        rw [r2]
      · have e1 : total - offset + page_size - 1 =
            (total - (offset + page_size) + page_size - 1) + page_size := by omega
        rw [e1, Nat.add_div_right _ hp]
    rw [hk, List.range_succ_eq_map, List.map_cons, List.map_map]
    refine congrArg₂ List.cons (by simp) (List.map_congr_left ?_)
    intro i _
    simp only [Function.comp_apply, Prod.mk.injEq]
    refine ⟨?_, trivial⟩
    rw [Nat.succ_mul]
    ring
  · rw [page_loop, dif_neg h]
    have e0 : total - offset = 0 := by omega
    rw [e0]
    have r1 : (0 + page_size - 1) / page_size = 0 := Nat.div_eq_of_lt (by omega)
    rw [r1]
    rfl
termination_by total - offset
decreasing_by omega

/-- C5: for total count `T` and page size `P > 0`, the driver loop issues
exactly `ceil(T / P) = (T + P - 1) / P` fetch calls; the `i`-th call is at
offset `i * P` (offsets start at 0 and increase by exactly `P`) and requests
`P` records, so the last page's requested count may exceed the remainder and
the loop stops as soon as the offset reaches `T`. -/
theorem C5_page_fetch_calls (T P : Nat) (hp : 0 < P) :
    (page_loop T P hp 0).length = (T + P - 1) / P ∧
    ∀ i (h : i < (page_loop T P hp 0).length),
      (page_loop T P hp 0).get ⟨i, h⟩ = (i * P, P) := by
  have he := page_loop_eq T P hp 0
  rw [Nat.sub_zero] at he
  constructor
  · rw [he]
    simp
  · intro i h
    rw [List.get_eq_getElem]
    simp only [he, List.getElem_map, List.getElem_range, Nat.zero_add]

/-- Witness for C5, the spec's scenario A: total 25000, page size 10000 give
exactly 3 fetch calls. -/
theorem C5_page_fetch_calls_witness :
    (page_loop 25000 10000 (by decide) 0).length = 3 :=
  (C5_page_fetch_calls 25000 10000 (by decide)).1.trans (by norm_num)

/-- A configuration with debug off, used to exhibit that the saved SID is
ignored outside debug mode. -/
def cfgNoDebug : Config :=
  ⟨false, "index=main error", "csv", 10000, none, none, "output.csv"⟩

/-- The same configuration with debug on. -/
def cfgDebug : Config :=
  ⟨true, "index=main error", "csv", 10000, none, none, "output.csv"⟩

/-- A persisted record whose query and time bounds match `cfgNoDebug` and
`cfgDebug` exactly. -/
def savedMatching : SavedSid := ⟨"sid-old", "index=main error", none, none⟩

/-- Counterexample to C6: a persisted handle matching the configuration
exactly, with `--force-new-job` unset, is still NOT reused when debug mode
is off — src line 412 loads the saved SID only under `debug_flag` — so a new
job is submitted and the persisted identifier is abandoned. -/
theorem C6_counterexample :
    sid_matches savedMatching cfgNoDebug = true ∧
    (acquire_job cfgNoDebug false (some savedMatching) "sid-new").2 ≠
      savedMatching.sid ∧
    MainAction.submitJob "index=main error" none none ∈
      (acquire_job cfgNoDebug false (some savedMatching) "sid-new").1 := by
  decide

/-- C6 as amended: when debug mode is enabled, a persisted handle whose
stored query and both time bounds exactly equal the current configuration is
reused without any submission when `--force-new-job` is unset; on any
mismatch of query or either bound the persisted identifier is discarded and
a new job is submitted. -/
theorem C6_resume_amended (cfg : Config) (saved : SavedSid) (force : Bool)
    (new_sid : String) (hdebug : cfg.debug = true) :
    ((force = false ∧ sid_matches saved cfg = true) →
      acquire_job cfg force (some saved) new_sid = ([], saved.sid)) ∧
    (sid_matches saved cfg = false →
      (acquire_job cfg force (some saved) new_sid).2 = new_sid ∧
      MainAction.submitJob cfg.search_query cfg.earliest cfg.latest ∈
        (acquire_job cfg force (some saved) new_sid).1) := by
  constructor
  · rintro ⟨hf, hm⟩
    subst hf
    simp [acquire_job, hdebug, hm]
  · intro hm
    cases force <;> simp [acquire_job, hdebug, hm, new_job_actions]

/-- Witness for the amended C6: with debug on and a matching record, the
saved SID is reused and nothing is submitted. -/
theorem C6_resume_amended_witness :
    acquire_job cfgDebug false (some savedMatching) "sid-new" = ([], "sid-old") := by
  have h := C6_resume_amended cfgDebug savedMatching false "sid-new" rfl
  exact h.1 ⟨rfl, by decide⟩

/-- C8: in raw (`log`) mode with a query containing an extended
transforming keyword, the run proceeds only on an explicit affirmative reply
(`strip().lower() == "y"`); any other reply — and a keyboard interrupt — ends
the run with exit status 0 having performed no action (no session, no job
submission, no output file). -/
theorem C8_raw_mode_confirmation (cfg : Config) (force : Bool)
    (saved : Option SavedSid) (ans : PromptAnswer) (new_sid : String)
    (hmode : cfg.output_mode = "log")
    (hk : has_extended_transforming_commands cfg.search_query = true) :
    (main_model cfg force saved ans new_sid = ([], MainResult.exited 0) ↔
      affirmative ans = false) ∧
    affirmative PromptAnswer.interrupt = false ∧
    (affirmative ans = true →
      (main_model cfg force saved ans new_sid).2 = MainResult.completed) := by
  have hc : confirm_decision cfg ans = affirmative ans := by
    simp [confirm_decision, hmode, hk]
  refine ⟨?_, rfl, fun ha => by simp [main_model, hc, ha]⟩
  cases ha : affirmative ans
  · simp [main_model, hc, ha]
  · simp [main_model, hc, ha]

/-- Witness for C8, the spec's scenario B: `"index=main | stats count"` in
log mode with reply `"n"` exits cleanly with status 0 and an empty action
trace. -/
theorem C8_raw_mode_confirmation_witness :
    main_model ⟨false, "index=main | stats count", "log", 10000, none, none,
        "output.csv"⟩ false none (PromptAnswer.answer "n") "sid-new" =
      ([], MainResult.exited 0) := by
  have h := C8_raw_mode_confirmation
    ⟨false, "index=main | stats count", "log", 10000, none, none, "output.csv"⟩
    false none (PromptAnswer.answer "n") "sid-new" rfl (by decide)
  exact h.1.mpr (by decide)

/-- C9: both transforming-keyword detectors fire exactly when a keyword of
their set occurs as a case-insensitive substring anywhere in the query — not
as a standalone pipeline token, so `"topic"` triggers the tier set via
`top`; the confirmation detector's set strictly extends the tier set by
exactly `rex`, `eval`, `fields`, `dedup`, `rename`, so everything the tier
detector fires on also triggers the confirmation, but not conversely. -/
theorem C9_substring_detection :
    (∀ q : String, has_transforming_commands q = true →
      has_extended_transforming_commands q = true) ∧
    has_transforming_commands "index=main topic=user" = true ∧
    has_transforming_commands "index=main | STATS count" = true ∧
    (has_extended_transforming_commands "index=main | dedup host" = true ∧
      has_transforming_commands "index=main | dedup host" = false) ∧
    (∀ c ∈ ["rex", "eval", "fields", "dedup", "rename"],
      c ∈ extended_transforming_commands ∧ c ∉ transforming_commands) ∧
    (∀ c ∈ transforming_commands, c ∈ extended_transforming_commands) ∧
    (∀ q : String, (has_transforming_commands q = true ↔
      ∃ c ∈ transforming_commands, c.toList <:+: (pyLower q).toList)) := by
  have hsub : ∀ c ∈ transforming_commands, c ∈ extended_transforming_commands := by
    decide
  refine ⟨?_, by decide, by decide, by decide, by decide, hsub, ?_⟩
  · intro q h
    obtain ⟨c, hc, hcc⟩ :=
      List.any_eq_true.mp (by simpa [has_transforming_commands] using h)
    exact List.any_eq_true.mpr ⟨c, hsub c hc, hcc⟩
  · intro q
    simp [has_transforming_commands, strContainsSub, List.any_eq_true]

/-- C10: whenever the persisted identifier is reused (debug on, matching
record, no `--force-new-job`, confirmation passed), the run's action trace
is exactly session creation, the total-count query against the reused SID,
and the output write: the polling loop is never entered, nothing is
submitted, and the persisted handle is not re-saved. -/
theorem C10_reuse_skips_poll (cfg : Config) (saved : SavedSid)
    (ans : PromptAnswer) (new_sid : String)
    (hdebug : cfg.debug = true)
    (hmatch : sid_matches saved cfg = true)
    (hconf : confirm_decision cfg ans = true) :
    main_model cfg false (some saved) ans new_sid =
      ([MainAction.createSession, MainAction.getTotalCount saved.sid,
        MainAction.writeOutput cfg.output_file], MainResult.completed) ∧
    (∀ sid, MainAction.pollLoop sid ∉
      (main_model cfg false (some saved) ans new_sid).1) ∧
    (∀ sid, MainAction.saveSid sid ∉
      (main_model cfg false (some saved) ans new_sid).1) ∧
    (∀ q e l, MainAction.submitJob q e l ∉
      (main_model cfg false (some saved) ans new_sid).1) := by
  have hacq : acquire_job cfg false (some saved) new_sid = ([], saved.sid) := by
    simp [acquire_job, hdebug, hmatch]
  have hmain : main_model cfg false (some saved) ans new_sid =
      ([MainAction.createSession, MainAction.getTotalCount saved.sid,
        MainAction.writeOutput cfg.output_file], MainResult.completed) := by
    simp [main_model, hconf, hacq]
  refine ⟨hmain, ?_, ?_, ?_⟩
  · intro sid
    rw [hmain]
    simp
  · intro sid
    rw [hmain]
    simp
  · intro q e l
    rw [hmain]
    simp

/-- Witness for C10: with debug on and the matching record, the trace holds
only session creation, the count query for `sid-old`, and the output
write. -/
theorem C10_reuse_skips_poll_witness :
    main_model cfgDebug false (some savedMatching) (PromptAnswer.answer "")
        "sid-new" =
      ([MainAction.createSession, MainAction.getTotalCount "sid-old",
        MainAction.writeOutput "output.csv"], MainResult.completed) := by
  have h := C10_reuse_skips_poll cfgDebug savedMatching
    (PromptAnswer.answer "") "sid-new" rfl (by decide) (by decide)
  exact h.1

end SplunkLogDownloader
